import Mathlib

/-!
Verification of the voice-activity-detection core of the ai-voice-assistant
repository (main.go), as a shallow embedding in Lean 4.

Modelling conventions:
* Go float64 arithmetic is embedded as exact rational arithmetic on ℚ.
  The arithmetic operations are spelled fAdd, fMul, fSub, fDiv, fMax;
  they are provably equal to the Mathlib field operations on ℚ (see the
  bridge lemmas fAdd_eq, fMul_eq, fSub_eq, fMax_eq below) and are written
  through Rat.divInt so that every closed run of the embedded program can
  be evaluated by kernel reduction.
* An audio frame is the int16 sample buffer the callback builds from its
  float32 input (a List Int); the lossy float32-to-int16 conversion is the
  external capture boundary and is not modelled.
* Wall-clock reads (time.Now / time.Since) are embedded by passing the
  current time now : ℚ (in seconds) into each callback invocation;
  startTime is session state and elapsed = now - startTime.
* The unbuffered done-channel send, the re-prompt goroutine launch and the
  voice-detected log line are embedded as an emitted Event; the main loop
  (which receives done once and then stops the stream) is embedded by
  runUntilDone, which stops at the first done event.
-/

/-- Embedded float64 addition (exact rational arithmetic). -/
def fAdd (a b : ℚ) : ℚ :=
  Rat.divInt (a.num * (b.den : Int) + b.num * (a.den : Int)) ((a.den : Int) * (b.den : Int))

/-- Embedded float64 multiplication (exact rational arithmetic). -/
def fMul (a b : ℚ) : ℚ :=
  Rat.divInt (a.num * b.num) ((a.den : Int) * (b.den : Int))

/-- Embedded float64 subtraction (exact rational arithmetic). -/
def fSub (a b : ℚ) : ℚ :=
  Rat.divInt (a.num * (b.den : Int) - b.num * (a.den : Int)) ((a.den : Int) * (b.den : Int))

/-- Embedded float64 division (exact rational arithmetic). -/
def fDiv (a b : ℚ) : ℚ :=
  Rat.divInt (a.num * (b.den : Int)) ((a.den : Int) * b.num)

/-- Embedded math.Max on the values the program feeds it (finite numbers). -/
def fMax (a b : ℚ) : ℚ := if a ≤ b then b else a

/-- Constants from the const block of main.go: bufferDuration = 0.5 s. -/
def bufferDuration : ℚ := Rat.divInt 5 10

/-- longTermAlpha = 0.995, the slow EMA smoothing factor. -/
def longTermAlpha : ℚ := Rat.divInt 995 1000

/-- currentNoiseAlpha = 0.920, the fast EMA smoothing factor. -/
def currentNoiseAlpha : ℚ := Rat.divInt 920 1000

/-- voiceStartThreshold = 2.5, multiplier over the noise level. -/
def voiceStartThreshold : ℚ := Rat.divInt 25 10

/-- voiceEndThreshold = 1.5, multiplier over the ambient level. -/
def voiceEndThreshold : ℚ := Rat.divInt 15 10

/-- minNoiseFloor = 100.0. -/
def minNoiseFloor : ℚ := 100

/-- adaptationPeriod = 50 frames. -/
def adaptationPeriod : Nat := 50

/-- maxPlaybackLevel = 10000.0, the echo-guard amplitude threshold. -/
def maxPlaybackLevel : ℚ := 10000

/-- voiceDetectionTimeout = 5 seconds. -/
def voiceDetectionTimeout : ℚ := 5

/-- The mutable per-session state of the Go AudioProcessor struct
(the fields the capture callback reads and writes). -/
structure AudioProcessor where
  audioBuffer : List (List Int)
  frames : List (List Int)
  longTermNoise : ℚ
  currentNoise : ℚ
  voiceDetected : Bool
  ambientNoise : ℚ
  silenceFrames : Nat
  frameCount : Nat
  startTime : ℚ
  promptPlayed : Bool
  isPlaying : Bool
deriving DecidableEq, Repr

/-- Mean absolute sample value of a frame: the level computation of both
the callback prologue and getLevels in main.go (sum of math.Abs over the
samples, divided by the length). -/
def meanAbs (data : List Int) : ℚ :=
  fDiv (data.foldl (fun sum s => fAdd sum ((s.natAbs : Nat) : ℚ)) 0) ((data.length : Nat) : ℚ)

/-- getLevels from main.go: computes pegel and applies both EMA updates,
returning (pegel, longTermNoise, currentNoise) plus the updated state. -/
def getLevels (ap : AudioProcessor) (data : List Int) :
    ℚ × ℚ × ℚ × AudioProcessor :=
  let pegel := meanAbs data
  let lt := fAdd (fMul ap.longTermNoise longTermAlpha) (fMul pegel (fSub 1 longTermAlpha))
  let cn := fAdd (fMul ap.currentNoise currentNoiseAlpha) (fMul pegel (fSub 1 currentNoiseAlpha))
  (pegel, lt, cn, { ap with longTermNoise := lt, currentNoise := cn })

/-- Observable session events: the VoiceDetected log line, the goroutine
that plays the re-prompt, and the send on the done channel. -/
inductive Event where
  | voiceDetected : Event
  | rePrompt : Event
  | done : Event
deriving DecidableEq, Repr

/-- audioCallback from main.go, one invocation on the int16 buffer. -/
def audioCallback (ap0 : AudioProcessor) (now : ℚ) (buffer : List Int) :
    AudioProcessor × Option Event :=
  let currentLevel := meanAbs buffer
  if ap0.isPlaying = true ∧ currentLevel > maxPlaybackLevel then
    (ap0, none)
  else if ap0.voiceDetected = false ∧ fSub now ap0.startTime > voiceDetectionTimeout ∧ ap0.promptPlayed = false then
    ({ ap0 with promptPlayed := true, startTime := now }, some Event.rePrompt)
  else if ap0.voiceDetected = false ∧ fSub now ap0.startTime > voiceDetectionTimeout ∧ ap0.promptPlayed = true then
    (ap0, some Event.done)
  else
    let res := getLevels ap0 buffer
    let longTermNoise := res.2.1
    let currentNoise := res.2.2.1
    let ap : AudioProcessor := { res.2.2.2 with audioBuffer := res.2.2.2.audioBuffer ++ [buffer] }
    let startThreshold := fMax (fMul longTermNoise voiceStartThreshold) minNoiseFloor
    let endThreshold := fMax (fMul ap.ambientNoise voiceEndThreshold) (fDiv minNoiseFloor 2)
    if ap.voiceDetected = true then
      let ap2 : AudioProcessor := { ap with frames := ap.frames ++ [buffer] }
      if currentNoise < endThreshold then
        let ap3 : AudioProcessor := { ap2 with silenceFrames := ap2.silenceFrames + 1 }
        if ap3.silenceFrames > 10 then (ap3, some Event.done) else (ap3, none)
      else ({ ap2 with silenceFrames := 0 }, none)
    else
      let ap2 : AudioProcessor := { ap with frameCount := ap.frameCount + 1 }
      if ap2.frameCount < adaptationPeriod then (ap2, none)
      else if currentNoise > startThreshold then
        ({ ap2 with voiceDetected := true, ambientNoise := longTermNoise, frames := ap2.frames ++ ap2.audioBuffer, silenceFrames := 0 }, some Event.voiceDetected)
      else (ap2, none)

/-- The state produced by startRecording in main.go: all counters and
buffers reset, startTime set to the current time. -/
def initState (now : ℚ) : AudioProcessor :=
  { audioBuffer := [], frames := [], longTermNoise := 0, currentNoise := 0,
    voiceDetected := false, ambientNoise := 0, silenceFrames := 0,
    frameCount := 0, startTime := now, promptPlayed := false, isPlaying := false }

/-- Process every input frame, collecting all emitted events. -/
def runAll : AudioProcessor → List (ℚ × List Int) → AudioProcessor × List Event
  | ap, [] => (ap, [])
  | ap, (now, buf) :: rest =>
    let s := audioCallback ap now buf
    let r := runAll s.1 rest
    (r.1, s.2.toList ++ r.2)

/-- The state reached after processing a list of input frames. -/
def runState (ap : AudioProcessor) (inputs : List (ℚ × List Int)) : AudioProcessor :=
  inputs.foldl (fun s p => (audioCallback s p.1 p.2).1) ap

/-- Process input frames the way main.go consumes the session: the main
loop receives on the done channel once and then stops the stream, so the
run ends at the first done event. -/
def runUntilDone : AudioProcessor → List (ℚ × List Int) → AudioProcessor × List Event
  | ap, [] => (ap, [])
  | ap, (now, buf) :: rest =>
    match audioCallback ap now buf with
    | (ap2, some Event.done) => (ap2, [Event.done])
    | (ap2, some e) =>
      let r := runUntilDone ap2 rest
      (r.1, e :: r.2)
    | (ap2, none) => runUntilDone ap2 rest

/-- The long-term EMA value getLevels would produce from a frame. -/
def nextLong (ap : AudioProcessor) (buf : List Int) : ℚ :=
  fAdd (fMul ap.longTermNoise longTermAlpha) (fMul (meanAbs buf) (fSub 1 longTermAlpha))

/-- The fast EMA value (currentNoise) getLevels would produce from a frame. -/
def nextNoise (ap : AudioProcessor) (buf : List Int) : ℚ :=
  fAdd (fMul ap.currentNoise currentNoiseAlpha) (fMul (meanAbs buf) (fSub 1 currentNoiseAlpha))

/-- The end-of-speech threshold computed by audioCallback (constant during
Speaking, since ambientNoise is frozen at the trigger). -/
def endThresh (ap : AudioProcessor) : ℚ :=
  fMax (fMul ap.ambientNoise voiceEndThreshold) (fDiv minNoiseFloor 2)

/-- The voice-start threshold audioCallback computes after the EMA update
of a frame. -/
def nextStartThresh (ap : AudioProcessor) (buf : List Int) : ℚ :=
  fMax (fMul (nextLong ap buf) voiceStartThreshold) minNoiseFloor

/-- Every frame of the list is a sub-threshold frame: after its EMA update,
currentNoise is below the end threshold at that state. -/
def allBelowB : AudioProcessor → List (ℚ × List Int) → Bool
  | _, [] => true
  | ap, (now, buf) :: rest =>
    (decide (nextNoise ap buf < endThresh ap))
      && allBelowB (audioCallback ap now buf).1 rest

/-- Every frame of the list keeps currentNoise at or below the voice-start
threshold (so voice detection can never fire on it). -/
def allNoVoiceB : AudioProcessor → List (ℚ × List Int) → Bool
  | _, [] => true
  | ap, (now, buf) :: rest =>
    (decide (¬ nextNoise ap buf > nextStartThresh ap buf))
      && allNoVoiceB (audioCallback ap now buf).1 rest

/-- Go conversion int(x) for non-negative x: truncation toward zero. -/
def goInt (q : ℚ) : Int := q.num / (q.den : Int)

/-- The pre-roll capacity computed by NewAudioProcessor:
int(float64(sampleRate/framesPerBuffer) * bufferDuration), with Go integer
division inside the cast. -/
def bufferSize (sampleRate framesPerBuffer : Nat) : Int :=
  goInt (fMul (((sampleRate / framesPerBuffer : Nat) : Int) : ℚ) bufferDuration)

/-- A chat message of the conversation history (role and content). -/
structure ChatMessage where
  role : String
  content : String
deriving DecidableEq

/-- The history handling of generateResponse in main.go: append the user
message, keep only the last 10 history messages, build the request message
list (system prompt first), and after the stream append the assistant
reply. Returns (request messages, stored history after the call). -/
def generateResponseMessages (sys : ChatMessage) (history : List ChatMessage)
    (userText fullResponse : String) : List ChatMessage × List ChatMessage :=
  let h1 := history ++ [⟨"user", userText⟩]
  let h2 := if h1.length > 10 then h1.drop (h1.length - 10) else h1
  let messages := sys :: h2
  let h3 := h2 ++ [⟨"assistant", fullResponse⟩]
  (messages, h3)

/-- Reference scenario: 49 silent frames, one loud frame (detection), then
silent frames until the hysteresis completes the session. -/
def scenarioRun : List (ℚ × List Int) :=
  List.replicate 49 ((0 : ℚ), [(0 : Int)]) ++ [((0 : ℚ), [(5000 : Int)])]
    ++ List.replicate 35 ((0 : ℚ), [(0 : Int)])

/-- Fifty loud frames from session start. -/
def c4Run : List (ℚ × List Int) := List.replicate 50 ((0 : ℚ), [(5000 : Int)])

/-- The warm-up of the reference scenario of the spec: fifty frames at
level 50 (below the noise floor). -/
def spec8Warmup : List (ℚ × List Int) := List.replicate 50 ((0 : ℚ), [(50 : Int)])

/-- A concrete Speaking-state session (used by witnesses). -/
def apSpeaking : AudioProcessor :=
  { audioBuffer := [], frames := [], longTermNoise := 0, currentNoise := 0,
    voiceDetected := true, ambientNoise := 0, silenceFrames := 0,
    frameCount := 50, startTime := 0, promptPlayed := false, isPlaying := false }

/-- The state audioCallback produces from a frame accepted while not yet
in Speaking and not firing detection: EMAs updated, frame appended to the
rolling buffer, frame counter bumped. -/
def apListen (ap : AudioProcessor) (buf : List Int) : AudioProcessor :=
  { ap with longTermNoise := nextLong ap buf, currentNoise := nextNoise ap buf,
            audioBuffer := ap.audioBuffer ++ [buf], frameCount := ap.frameCount + 1 }

/-- The state audioCallback produces from a frame accepted while in
Speaking: EMAs updated, frame appended to both buffers, silence counter
set to s. -/
def apSpeak (ap : AudioProcessor) (buf : List Int) (s : Nat) : AudioProcessor :=
  { ap with longTermNoise := nextLong ap buf, currentNoise := nextNoise ap buf,
            audioBuffer := ap.audioBuffer ++ [buf], frames := ap.frames ++ [buf],
            silenceFrames := s }

/- ### Step-characterization lemmas for audioCallback -/

/-- A frame dropped by the echo guard leaves the whole state unchanged and
emits nothing. -/
lemma audioCallback_echoDrop (ap : AudioProcessor) (now : ℚ) (buf : List Int)
    (h1 : ap.isPlaying = true) (h2 : meanAbs buf > maxPlaybackLevel) :
    audioCallback ap now buf = (ap, none) := by
  unfold audioCallback
  rw [if_pos ⟨h1, h2⟩]

/-- The re-prompt step: voice not yet detected, the timeout has elapsed and
no prompt was played yet. -/
lemma audioCallback_rePrompt (ap : AudioProcessor) (now : ℚ) (buf : List Int)
    (hng : ¬ (ap.isPlaying = true ∧ meanAbs buf > maxPlaybackLevel))
    (hv : ap.voiceDetected = false)
    (ht : fSub now ap.startTime > voiceDetectionTimeout)
    (hpp : ap.promptPlayed = false) :
    audioCallback ap now buf =
      ({ ap with promptPlayed := true, startTime := now }, some Event.rePrompt) := by
  simp [audioCallback, hng, hv, ht, hpp]

/-- The abort step: voice not yet detected, the timeout has elapsed again
after the prompt was already played. -/
lemma audioCallback_abort (ap : AudioProcessor) (now : ℚ) (buf : List Int)
    (hng : ¬ (ap.isPlaying = true ∧ meanAbs buf > maxPlaybackLevel))
    (hv : ap.voiceDetected = false)
    (ht : fSub now ap.startTime > voiceDetectionTimeout)
    (hpp : ap.promptPlayed = true) :
    audioCallback ap now buf = (ap, some Event.done) := by
  simp [audioCallback, hng, hv, ht, hpp]

/-- A Speaking-state frame whose updated currentNoise is below the end
threshold: appended to both buffers, silence counter incremented, done
emitted exactly when the counter passes the hysteresis bound. -/
lemma audioCallback_speaking_below (ap : AudioProcessor) (now : ℚ) (buf : List Int)
    (hv : ap.voiceDetected = true)
    (hng : ¬ (ap.isPlaying = true ∧ meanAbs buf > maxPlaybackLevel))
    (hb : nextNoise ap buf < endThresh ap) :
    audioCallback ap now buf =
      (apSpeak ap buf (ap.silenceFrames + 1),
       if ap.silenceFrames + 1 > 10 then some Event.done else none) := by
  have hb2 := hb
  unfold nextNoise endThresh at hb2
  simp [audioCallback, getLevels, apSpeak, hv, hng, hb2, nextNoise, nextLong]
  split <;> rfl

/-- A Speaking-state frame whose updated currentNoise is at or above the
end threshold: appended to both buffers, silence counter reset to 0. -/
lemma audioCallback_speaking_above (ap : AudioProcessor) (now : ℚ) (buf : List Int)
    (hv : ap.voiceDetected = true)
    (hng : ¬ (ap.isPlaying = true ∧ meanAbs buf > maxPlaybackLevel))
    (hb : ¬ nextNoise ap buf < endThresh ap) :
    audioCallback ap now buf = (apSpeak ap buf 0, none) := by
  have hb2 := hb
  unfold nextNoise endThresh at hb2
  simp [audioCallback, getLevels, apSpeak, hv, hng, hb2, nextNoise, nextLong]

/-- A frame accepted during the warm-up (frameCount still below the
adaptation period after the increment): EMAs and rolling buffer updated,
no transition regardless of level. -/
lemma audioCallback_adapting (ap : AudioProcessor) (now : ℚ) (buf : List Int)
    (hng : ¬ (ap.isPlaying = true ∧ meanAbs buf > maxPlaybackLevel))
    (hv : ap.voiceDetected = false)
    (ht : ¬ fSub now ap.startTime > voiceDetectionTimeout)
    (hfc : ap.frameCount + 1 < adaptationPeriod) :
    audioCallback ap now buf = (apListen ap buf, none) := by
  simp [audioCallback, getLevels, apListen, hng, hv, ht, hfc, nextNoise, nextLong]

/-- A quiet accepted frame while not yet in Speaking (no timeout fire, no
detection fire): EMAs and rolling buffer updated, nothing emitted. -/
lemma audioCallback_listen_quiet (ap : AudioProcessor) (now : ℚ) (buf : List Int)
    (hng : ¬ (ap.isPlaying = true ∧ meanAbs buf > maxPlaybackLevel))
    (hv : ap.voiceDetected = false)
    (ht : ¬ fSub now ap.startTime > voiceDetectionTimeout)
    (hq : ¬ nextNoise ap buf > nextStartThresh ap buf) :
    audioCallback ap now buf = (apListen ap buf, none) := by
  have hq2 := hq
  unfold nextNoise nextStartThresh nextLong at hq2
  by_cases hfc : ap.frameCount + 1 < adaptationPeriod
  · exact audioCallback_adapting ap now buf hng hv ht hfc
  · simp [audioCallback, getLevels, apListen, hng, hv, ht, hfc, hq2, nextNoise, nextLong]

/-- The detection step (Listening to Speaking): ambient noise frozen at the
updated long-term level, the accumulation buffer seeded with the whole
rolling buffer (which already contains the current frame), silence counter
reset, VoiceDetected emitted. -/
lemma audioCallback_trigger (ap : AudioProcessor) (now : ℚ) (buf : List Int)
    (hng : ¬ (ap.isPlaying = true ∧ meanAbs buf > maxPlaybackLevel))
    (hv : ap.voiceDetected = false)
    (ht : ¬ fSub now ap.startTime > voiceDetectionTimeout)
    (hfc : ¬ ap.frameCount + 1 < adaptationPeriod)
    (hd : nextNoise ap buf > nextStartThresh ap buf) :
    audioCallback ap now buf =
      ({ apListen ap buf with voiceDetected := true, ambientNoise := nextLong ap buf, frames := ap.frames ++ (ap.audioBuffer ++ [buf]), silenceFrames := 0 }, some Event.voiceDetected) := by
  have hd2 := hd
  unfold nextNoise nextStartThresh nextLong at hd2
  simp [audioCallback, getLevels, apListen, hng, hv, ht, hfc, hd2, nextNoise, nextLong]

/- ### Run-level lemmas -/

lemma runState_nil (ap : AudioProcessor) : runState ap [] = ap := rfl

lemma runState_cons (ap : AudioProcessor) (p : ℚ × List Int) (xs : List (ℚ × List Int)) :
    runState ap (p :: xs) = runState (audioCallback ap p.1 p.2).1 xs := rfl

lemma runAll_fst (xs : List (ℚ × List Int)) : ∀ ap : AudioProcessor,
    (runAll ap xs).1 = runState ap xs := by
  induction xs with
  | nil => intro ap; rfl
  | cons p rest ih =>
    intro ap
    obtain ⟨now, buf⟩ := p
    simp [runAll, runState_cons, ih]

lemma runState_append (xs ys : List (ℚ × List Int)) (ap : AudioProcessor) :
    runState ap (xs ++ ys) = runState (runState ap xs) ys := by
  simp [runState, List.foldl_append]

lemma runAll_append (xs ys : List (ℚ × List Int)) : ∀ ap : AudioProcessor,
    runAll ap (xs ++ ys) =
      ((runAll (runState ap xs) ys).1, (runAll ap xs).2 ++ (runAll (runState ap xs) ys).2) := by
  induction xs with
  | nil => intro ap; simp [runAll, runState_nil]
  | cons p rest ih =>
    intro ap
    obtain ⟨now, buf⟩ := p
    simp [runAll, runState_cons, ih]

lemma allBelowB_append (xs ys : List (ℚ × List Int)) : ∀ ap : AudioProcessor,
    allBelowB ap (xs ++ ys) = (allBelowB ap xs && allBelowB (runState ap xs) ys) := by
  induction xs with
  | nil => intro ap; simp [allBelowB, runState_nil]
  | cons p rest ih =>
    intro ap
    obtain ⟨now, buf⟩ := p
    simp [allBelowB, runState_cons, ih, Bool.and_assoc]

lemma allNoVoiceB_append (xs ys : List (ℚ × List Int)) : ∀ ap : AudioProcessor,
    allNoVoiceB ap (xs ++ ys) = (allNoVoiceB ap xs && allNoVoiceB (runState ap xs) ys) := by
  induction xs with
  | nil => intro ap; simp [allNoVoiceB, runState_nil]
  | cons p rest ih =>
    intro ap
    obtain ⟨now, buf⟩ := p
    simp [allNoVoiceB, runState_cons, ih, Bool.and_assoc]

lemma runUntilDone_cons_none (ap ap2 : AudioProcessor) (now : ℚ) (buf : List Int)
    (rest : List (ℚ × List Int)) (h : audioCallback ap now buf = (ap2, none)) :
    runUntilDone ap ((now, buf) :: rest) = runUntilDone ap2 rest := by
  simp [runUntilDone, h]

lemma runUntilDone_cons_rePrompt (ap ap2 : AudioProcessor) (now : ℚ) (buf : List Int)
    (rest : List (ℚ × List Int)) (h : audioCallback ap now buf = (ap2, some Event.rePrompt)) :
    runUntilDone ap ((now, buf) :: rest) =
      ((runUntilDone ap2 rest).1, Event.rePrompt :: (runUntilDone ap2 rest).2) := by
  simp [runUntilDone, h]

lemma runUntilDone_cons_voiceDetected (ap ap2 : AudioProcessor) (now : ℚ) (buf : List Int)
    (rest : List (ℚ × List Int)) (h : audioCallback ap now buf = (ap2, some Event.voiceDetected)) :
    runUntilDone ap ((now, buf) :: rest) =
      ((runUntilDone ap2 rest).1, Event.voiceDetected :: (runUntilDone ap2 rest).2) := by
  simp [runUntilDone, h]

lemma runUntilDone_cons_done (ap ap2 : AudioProcessor) (now : ℚ) (buf : List Int)
    (rest : List (ℚ × List Int)) (h : audioCallback ap now buf = (ap2, some Event.done)) :
    runUntilDone ap ((now, buf) :: rest) = (ap2, [Event.done]) := by
  simp [runUntilDone, h]

/-- A session that is not playing back audio never drops a frame. -/
lemma notDrop (ap : AudioProcessor) (buf : List Int) (hp : ap.isPlaying = false) :
    ¬ (ap.isPlaying = true ∧ meanAbs buf > maxPlaybackLevel) := by
  rintro ⟨h, -⟩
  rw [hp] at h
  exact Bool.false_ne_true h

/-- A run of consecutive sub-threshold frames in Speaking that stays within
the hysteresis bound: no event is emitted and the silence counter advances
by exactly the number of frames. -/
lemma runAll_below (inputs : List (ℚ × List Int)) : ∀ ap : AudioProcessor,
    ap.isPlaying = false → ap.voiceDetected = true →
    allBelowB ap inputs = true → ap.silenceFrames + inputs.length ≤ 10 →
    (runAll ap inputs).2 = [] ∧
    (runAll ap inputs).1.silenceFrames = ap.silenceFrames + inputs.length ∧
    (runAll ap inputs).1.voiceDetected = true ∧
    (runAll ap inputs).1.isPlaying = false := by
  induction inputs with
  | nil => intro ap hp hv _ _; simp [runAll, hp, hv]
  | cons p rest ih =>
    intro ap hp hv hall hn
    obtain ⟨now, buf⟩ := p
    simp only [allBelowB, Bool.and_eq_true, decide_eq_true_eq] at hall
    obtain ⟨hb, hall2⟩ := hall
    have hstep := audioCallback_speaking_below ap now buf hv (notDrop ap buf hp) hb
    have hle : ap.silenceFrames + 1 ≤ 10 := by
      simp only [List.length_cons] at hn; omega
    have hnotten : ¬ ap.silenceFrames + 1 > 10 := by omega
    rw [if_neg hnotten] at hstep
    have hall3 : allBelowB (apSpeak ap buf (ap.silenceFrames + 1)) rest = true := by
      rw [hstep] at hall2; exact hall2
    have ihr := ih (apSpeak ap buf (ap.silenceFrames + 1)) (by simp [apSpeak, hp])
      (by simp [apSpeak, hv]) hall3
      (by simp only [apSpeak, List.length_cons] at hn ⊢; omega)
    simp only [runAll, hstep, Option.toList, List.nil_append, List.length_cons]
    refine ⟨ihr.1, ?_, ihr.2.2.1, ihr.2.2.2⟩
    rw [ihr.2.1]
    simp [apSpeak]
    omega

/-- A run of quiet frames before voice detection, each within the no-voice
timeout: the session just adapts, emitting nothing; the timer, prompt flag
and accumulation buffer are untouched. -/
lemma quietRun (xs : List (ℚ × List Int)) : ∀ (ap : AudioProcessor) (ys : List (ℚ × List Int)),
    ap.isPlaying = false → ap.voiceDetected = false →
    allNoVoiceB ap xs = true →
    (∀ p ∈ xs, fSub p.1 ap.startTime ≤ voiceDetectionTimeout) →
    runUntilDone ap (xs ++ ys) = runUntilDone (runState ap xs) ys ∧
    (runState ap xs).isPlaying = false ∧
    (runState ap xs).voiceDetected = false ∧
    (runState ap xs).startTime = ap.startTime ∧
    (runState ap xs).promptPlayed = ap.promptPlayed ∧
    (runState ap xs).frames = ap.frames := by
  induction xs with
  | nil => intro ap ys hp hv _ _; simp [runState_nil, hp, hv]
  | cons p rest ih =>
    intro ap ys hp hv hall hts
    obtain ⟨now, buf⟩ := p
    simp only [allNoVoiceB, Bool.and_eq_true, decide_eq_true_eq] at hall
    obtain ⟨hq, hall2⟩ := hall
    have ht : ¬ fSub now ap.startTime > voiceDetectionTimeout := by
      exact not_lt.mpr (hts (now, buf) (List.mem_cons_self _ _))
    have hstep := audioCallback_listen_quiet ap now buf (notDrop ap buf hp) hv ht hq
    have hall3 : allNoVoiceB (apListen ap buf) rest = true := by
      rw [hstep] at hall2; exact hall2
    have hts2 : ∀ p ∈ rest, fSub p.1 (apListen ap buf).startTime ≤ voiceDetectionTimeout := by
      intro p hmem
      simp only [apListen]
      exact hts p (List.mem_cons_of_mem _ hmem)
    have ihr := ih (apListen ap buf) ys (by simp [apListen, hp]) (by simp [apListen, hv])
      hall3 hts2
    rw [List.cons_append, runUntilDone_cons_none ap (apListen ap buf) now buf _ hstep,
      runState_cons]
    simp only [hstep]
    refine ⟨ihr.1, ihr.2.1, ihr.2.2.1, ?_, ?_, ?_⟩
    · rw [ihr.2.2.2.1]; simp [apListen]
    · rw [ihr.2.2.2.2.1]; simp [apListen]
    · rw [ihr.2.2.2.2.2]; simp [apListen]

/- ### Bridge lemmas: the embedded float operations are the ℚ field
operations. -/

lemma fAdd_eq (a b : ℚ) : fAdd a b = a + b := by
  have ha : ((a.den : ℚ)) ≠ 0 := Nat.cast_ne_zero.mpr a.den_nz
  have hb : ((b.den : ℚ)) ≠ 0 := Nat.cast_ne_zero.mpr b.den_nz
  rw [fAdd, Rat.divInt_eq_div]
  push_cast
  conv_rhs => rw [← Rat.num_div_den a, ← Rat.num_div_den b, div_add_div _ _ ha hb]
  ring_nf

lemma fMul_eq (a b : ℚ) : fMul a b = a * b := by
  have ha : ((a.den : ℚ)) ≠ 0 := Nat.cast_ne_zero.mpr a.den_nz
  have hb : ((b.den : ℚ)) ≠ 0 := Nat.cast_ne_zero.mpr b.den_nz
  rw [fMul, Rat.divInt_eq_div]
  push_cast
  conv_rhs => rw [← Rat.num_div_den a, ← Rat.num_div_den b]
  rw [div_mul_div_comm]

lemma fSub_eq (a b : ℚ) : fSub a b = a - b := by
  have ha : ((a.den : ℚ)) ≠ 0 := Nat.cast_ne_zero.mpr a.den_nz
  have hb : ((b.den : ℚ)) ≠ 0 := Nat.cast_ne_zero.mpr b.den_nz
  rw [fSub, Rat.divInt_eq_div]
  push_cast
  conv_rhs => rw [← Rat.num_div_den a, ← Rat.num_div_den b, div_sub_div _ _ ha hb]
  ring_nf

lemma fDiv_eq (a b : ℚ) : fDiv a b = a / b := by
  have ha : ((a.den : ℚ)) ≠ 0 := Nat.cast_ne_zero.mpr a.den_nz
  have hb : ((b.den : ℚ)) ≠ 0 := Nat.cast_ne_zero.mpr b.den_nz
  rw [fDiv, Rat.divInt_eq_div]
  push_cast
  conv_rhs => rw [← Rat.num_div_den a, ← Rat.num_div_den b]
  rw [div_div_div_eq]

lemma fMax_eq (a b : ℚ) : fMax a b = max a b := by
  rw [fMax, max_def]

/- ### Claim theorems -/

/-- C7: a frame dropped by the EchoGuard (isPlaying set and instant level
above the playback-amplitude threshold) leaves the entire session state —
the noise model (longTermNoise, currentNoise), the pre-roll buffer and the
speech-accumulation buffer — completely unchanged, in every state, and
emits no event. -/
theorem C7_echo_drop_isolation (ap : AudioProcessor) (now : ℚ) (buf : List Int)
    (h1 : ap.isPlaying = true) (h2 : meanAbs buf > maxPlaybackLevel) :
    audioCallback ap now buf = (ap, none) :=
  audioCallback_echoDrop ap now buf h1 h2

/-- Witness for C7: a concrete dropped frame during playback. -/
theorem C7_echo_drop_isolation_witness :
    audioCallback { apSpeaking with isPlaying := true } 0 [20000]
      = ({ apSpeaking with isPlaying := true }, none) :=
  C7_echo_drop_isolation { apSpeaking with isPlaying := true } 0 [20000] rfl (by decide)

/-- C9: a frame dropped by the EchoGuard never produces a re-prompt or an
abort, even when the no-voice timeout has already elapsed at that frame:
the echo-drop check runs before the timeout check, so no event is emitted
and neither the prompt flag nor the session timer changes. -/
theorem C9_echo_drop_suppresses_timeout (ap : AudioProcessor) (now : ℚ) (buf : List Int)
    (h1 : ap.isPlaying = true) (h2 : meanAbs buf > maxPlaybackLevel)
    (_h3 : fSub now ap.startTime > voiceDetectionTimeout) :
    (audioCallback ap now buf).2 = none ∧
    (audioCallback ap now buf).1.promptPlayed = ap.promptPlayed ∧
    (audioCallback ap now buf).1.startTime = ap.startTime := by
  rw [audioCallback_echoDrop ap now buf h1 h2]
  exact ⟨rfl, rfl, rfl⟩

/-- Witness for C9: a loud playback frame arriving six seconds into a
session that has not detected voice. -/
theorem C9_echo_drop_suppresses_timeout_witness :
    (audioCallback { initState 0 with isPlaying := true } 6 [30000]).2 = none ∧
    (audioCallback { initState 0 with isPlaying := true } 6 [30000]).1.promptPlayed
      = ({ initState 0 with isPlaying := true } : AudioProcessor).promptPlayed ∧
    (audioCallback { initState 0 with isPlaying := true } 6 [30000]).1.startTime
      = ({ initState 0 with isPlaying := true } : AudioProcessor).startTime :=
  C9_echo_drop_suppresses_timeout { initState 0 with isPlaying := true } 6 [30000]
    rfl (by decide) (by decide)

/-- C10: after every call of the history-handling logic of
generateResponse, the stored conversation history holds at most 11
messages, and the request sent to the model is the system prompt followed
by at most 10 history messages. -/
theorem C10_history_bounded (sys : ChatMessage) (history : List ChatMessage)
    (userText fullResponse : String) :
    (generateResponseMessages sys history userText fullResponse).2.length ≤ 11 ∧
    ∃ hist, (generateResponseMessages sys history userText fullResponse).1 = sys :: hist
      ∧ hist.length ≤ 10 := by
  simp only [generateResponseMessages]
  by_cases hl : (history ++ [(⟨"user", userText⟩ : ChatMessage)]).length > 10
  · rw [if_pos hl]
    constructor
    · simp only [List.length_append, List.length_drop, List.length_cons, List.length_nil]
      omega
    · refine ⟨_, rfl, ?_⟩
      simp only [List.length_drop]
      omega
  · rw [if_neg hl]
    simp only [List.length_append, List.length_cons, List.length_nil, gt_iff_lt, not_lt] at hl
    constructor
    · simp only [List.length_append, List.length_cons, List.length_nil]
      omega
    · refine ⟨_, rfl, ?_⟩
      simp only [List.length_append, List.length_cons, List.length_nil]
      omega

/-- C3 counterexample: a frame that is not dropped by the EchoGuard but on
which the no-voice timeout fires a re-prompt leaves both EMA noise
estimates unchanged (the callback returns before getLevels), refuting the
claim that every accepted frame updates them. -/
theorem C3_counterexample :
    ¬ ((initState 0).isPlaying = true ∧ meanAbs [1000] > maxPlaybackLevel) ∧
    (audioCallback (initState 0) 6 [1000]).2 = some Event.rePrompt ∧
    (audioCallback (initState 0) 6 [1000]).1.longTermNoise = (initState 0).longTermNoise ∧
    (audioCallback (initState 0) 6 [1000]).1.currentNoise = (initState 0).currentNoise ∧
    nextLong (initState 0) [1000] ≠ (initState 0).longTermNoise ∧
    nextNoise (initState 0) [1000] ≠ (initState 0).currentNoise := by
  decide

/-- C3 (amended): both EMA noise estimates are updated, in every state,
from every frame that is not dropped by the EchoGuard and on which the
no-voice timeout does not fire — on a timeout (re-prompt or abort) frame
the callback returns before the noise model is touched. -/
theorem C3_ema_updates (ap : AudioProcessor) (now : ℚ) (buf : List Int)
    (h1 : ¬ (ap.isPlaying = true ∧ meanAbs buf > maxPlaybackLevel))
    (h2 : ¬ (ap.voiceDetected = false ∧ fSub now ap.startTime > voiceDetectionTimeout)) :
    (audioCallback ap now buf).1.longTermNoise = nextLong ap buf ∧
    (audioCallback ap now buf).1.currentNoise = nextNoise ap buf := by
  cases hv : ap.voiceDetected with
  | false =>
    have ht : ¬ fSub now ap.startTime > voiceDetectionTimeout := fun ht => h2 ⟨hv, ht⟩
    by_cases hfc : ap.frameCount + 1 < adaptationPeriod
    · rw [audioCallback_adapting ap now buf h1 hv ht hfc]
      exact ⟨rfl, rfl⟩
    · by_cases hd : nextNoise ap buf > nextStartThresh ap buf
      · rw [audioCallback_trigger ap now buf h1 hv ht hfc hd]
        exact ⟨rfl, rfl⟩
      · rw [audioCallback_listen_quiet ap now buf h1 hv ht hd]
        exact ⟨rfl, rfl⟩
  | true =>
    by_cases hb : nextNoise ap buf < endThresh ap
    · rw [audioCallback_speaking_below ap now buf hv h1 hb]
      exact ⟨rfl, rfl⟩
    · rw [audioCallback_speaking_above ap now buf hv h1 hb]
      exact ⟨rfl, rfl⟩

/-- Witness for C3 (amended): a quiet frame inside the timeout window. -/
theorem C3_ema_updates_witness :
    (audioCallback (initState 0) 1 [1000]).1.longTermNoise = nextLong (initState 0) [1000] ∧
    (audioCallback (initState 0) 1 [1000]).1.currentNoise = nextNoise (initState 0) [1000] :=
  C3_ema_updates (initState 0) 1 [1000] (by decide) (by decide)

set_option maxRecDepth 400000 in
/-- C2 (code bug): the pre-roll buffer is unbounded in the code. With the
default configuration its computed capacity is 15 frames, yet a session of
16 accepted silent frames holds 16 frames (nothing is evicted), and in the
reference scenario the buffer keeps growing while the session is in the
Speaking state (85 frames after an utterance that triggered at frame 50). -/
theorem C2_preroll_bug :
    bufferSize 16000 512 = 15 ∧
    (runAll (initState 0) (List.replicate 16 ((0 : ℚ), [(0 : Int)]))).1.audioBuffer.length = 16 ∧
    (runUntilDone (initState 0) scenarioRun).1.voiceDetected = true ∧
    (runUntilDone (initState 0) scenarioRun).1.audioBuffer.length = 85 := by
  decide

set_option maxRecDepth 400000 in
/-- C4 counterexample: fifty frames of loud audio from session start make
the Listening-to-Speaking transition fire on frame 50 — the
adaptationPeriod-th frame, i.e. inside the claimed warm-up window — because
the code only skips frames with frameCount strictly below adaptationPeriod
after the increment. -/
theorem C4_counterexample :
    c4Run.length = adaptationPeriod ∧
    (runUntilDone (initState 0) c4Run).1.voiceDetected = true ∧
    (runUntilDone (initState 0) c4Run).2 = [Event.voiceDetected] := by
  decide

set_option maxRecDepth 400000 in
/-- C4 (amended): during the first adaptationPeriod − 1 accepted frames the
transition never fires regardless of level, while those frames still feed
the noise model and the pre-roll buffer; in the reference scenario (50
quiet warm-up frames, then loud frames) VoiceDetected fires at frame 51
and never earlier. -/
theorem C4_warmup_no_trigger :
    (∀ (ap : AudioProcessor) (now : ℚ) (buf : List Int),
      ap.isPlaying = false → ap.voiceDetected = false →
      ¬ fSub now ap.startTime > voiceDetectionTimeout →
      ap.frameCount + 1 < adaptationPeriod →
      (audioCallback ap now buf).1.voiceDetected = false ∧
      (audioCallback ap now buf).2 = none ∧
      (audioCallback ap now buf).1.longTermNoise = nextLong ap buf ∧
      (audioCallback ap now buf).1.currentNoise = nextNoise ap buf ∧
      (audioCallback ap now buf).1.audioBuffer = ap.audioBuffer ++ [buf]) ∧
    (runAll (initState 0) spec8Warmup).1.voiceDetected = false ∧
    (runAll (initState 0) (spec8Warmup ++ [((0 : ℚ), [(5000 : Int)])])).2
      = [Event.voiceDetected] := by
  refine ⟨?_, by decide, by decide⟩
  intro ap now buf hp hv ht hfc
  rw [audioCallback_adapting ap now buf (notDrop ap buf hp) hv ht hfc]
  exact ⟨hv, rfl, rfl, rfl, rfl⟩

/-- Witness for C4 (amended): the first frame of a fresh session. -/
theorem C4_warmup_no_trigger_witness :
    (audioCallback (initState 0) 1 [5000]).1.voiceDetected = false ∧
    (audioCallback (initState 0) 1 [5000]).2 = none ∧
    (audioCallback (initState 0) 1 [5000]).1.longTermNoise = nextLong (initState 0) [5000] ∧
    (audioCallback (initState 0) 1 [5000]).1.currentNoise = nextNoise (initState 0) [5000] ∧
    (audioCallback (initState 0) 1 [5000]).1.audioBuffer
      = (initState 0).audioBuffer ++ [[5000]] :=
  C4_warmup_no_trigger.1 (initState 0) 1 [5000] rfl rfl (by decide) (by decide)

set_option maxRecDepth 400000 in
/-- C1 counterexample: in the reference scenario the emitted Utterance
contains all 35 Speaking-state frames, including the 11 trailing silence
frames of the hysteresis window (the silence counter is 11 at completion),
refuting the claim that the hysteresis tail is excluded. -/
theorem C1_counterexample :
    (runUntilDone (initState 0) scenarioRun).2 = [Event.voiceDetected, Event.done] ∧
    (runUntilDone (initState 0) scenarioRun).1.silenceFrames = 11 ∧
    (runUntilDone (initState 0) scenarioRun).1.frames
      = List.replicate 49 [(0 : Int)] ++ [[5000]] ++ List.replicate 35 [0] := by
  decide

set_option maxRecDepth 400000 in
/-- C1 (amended): the Utterance emitted at Speaking-to-Completed equals the
pre-roll buffer contents at trigger time followed by every frame captured
while in the Speaking state, including the trailing silence frames of the
hysteresis window: at the trigger the accumulation buffer is seeded with
the whole rolling buffer, and every accepted Speaking frame — also the
ones that only confirm the end of speech — is appended before the
completion check. -/
theorem C1_utterance_content :
    (∀ (ap : AudioProcessor) (now : ℚ) (buf : List Int),
      ¬ (ap.isPlaying = true ∧ meanAbs buf > maxPlaybackLevel) →
      ap.voiceDetected = false →
      ¬ fSub now ap.startTime > voiceDetectionTimeout →
      ¬ ap.frameCount + 1 < adaptationPeriod →
      nextNoise ap buf > nextStartThresh ap buf →
      (audioCallback ap now buf).1.frames = ap.frames ++ (ap.audioBuffer ++ [buf]) ∧
      (audioCallback ap now buf).2 = some Event.voiceDetected) ∧
    (∀ (ap : AudioProcessor) (now : ℚ) (buf : List Int),
      ¬ (ap.isPlaying = true ∧ meanAbs buf > maxPlaybackLevel) →
      ap.voiceDetected = true →
      (audioCallback ap now buf).1.frames = ap.frames ++ [buf]) ∧
    (runUntilDone (initState 0) scenarioRun).1.frames
      = List.replicate 49 [(0 : Int)] ++ [[5000]] ++ List.replicate 35 [0] := by
  refine ⟨?_, ?_, by decide⟩
  · intro ap now buf hng hv ht hfc hd
    rw [audioCallback_trigger ap now buf hng hv ht hfc hd]
    exact ⟨rfl, rfl⟩
  · intro ap now buf hng hv
    by_cases hb : nextNoise ap buf < endThresh ap
    · rw [audioCallback_speaking_below ap now buf hv hng hb]
      rfl
    · rw [audioCallback_speaking_above ap now buf hv hng hb]
      rfl

/-- Witness for C1 (amended): a concrete trigger frame and a concrete
Speaking frame. -/
theorem C1_utterance_content_witness :
    (audioCallback { initState 0 with frameCount := 49, audioBuffer := [[0]] } 0 [5000]).1.frames
      = [] ++ ([[0]] ++ [[5000]]) ∧
    (audioCallback { initState 0 with frameCount := 49, audioBuffer := [[0]] } 0 [5000]).2
      = some Event.voiceDetected ∧
    (audioCallback apSpeaking 0 [0]).1.frames = [] ++ [[0]] := by
  have h := C1_utterance_content.1 { initState 0 with frameCount := 49, audioBuffer := [[0]] }
    0 [5000] (by decide) rfl (by decide) (by decide) (by decide)
  exact ⟨h.1, h.2, C1_utterance_content.2.1 apSpeaking 0 [0] (by decide) rfl⟩

set_option maxRecDepth 400000 in
/-- C8: the frame whose level fires the Listening-to-Speaking transition
appears in the Utterance exactly once: it is already the last entry of the
pre-roll buffer when the accumulation buffer is seeded from it, and it is
not appended again in the same callback invocation; in the reference
scenario the loud trigger frame occurs exactly once in the emitted
Utterance. -/
theorem C8_trigger_frame_once :
    (∀ (ap : AudioProcessor) (now : ℚ) (buf : List Int),
      ¬ (ap.isPlaying = true ∧ meanAbs buf > maxPlaybackLevel) →
      ap.voiceDetected = false →
      ¬ fSub now ap.startTime > voiceDetectionTimeout →
      ¬ ap.frameCount + 1 < adaptationPeriod →
      nextNoise ap buf > nextStartThresh ap buf →
      (audioCallback ap now buf).1.frames = ap.frames ++ ap.audioBuffer ++ [buf] ∧
      (audioCallback ap now buf).1.frames.count buf
        = ap.frames.count buf + ap.audioBuffer.count buf + 1) ∧
    (runUntilDone (initState 0) scenarioRun).1.frames.count [(5000 : Int)] = 1 := by
  refine ⟨?_, by decide⟩
  intro ap now buf hng hv ht hfc hd
  rw [audioCallback_trigger ap now buf hng hv ht hfc hd]
  constructor
  · exact (List.append_assoc _ _ _).symm
  · show (ap.frames ++ (ap.audioBuffer ++ [buf])).count buf = _
    simp [List.count_append]
    omega

/-- Witness for C8: a concrete trigger frame. -/
theorem C8_trigger_frame_once_witness :
    (audioCallback { initState 0 with frameCount := 49, audioBuffer := [[7]] } 0 [5000]).1.frames
      = [] ++ [[7]] ++ [[5000]] ∧
    (audioCallback { initState 0 with frameCount := 49, audioBuffer := [[7]] } 0 [5000]).1.frames.count [5000]
      = ([] : List (List Int)).count [5000] + [[7]].count [5000] + 1 :=
  C8_trigger_frame_once.1 { initState 0 with frameCount := 49, audioBuffer := [[7]] }
    0 [5000] (by decide) rfl (by decide) (by decide) (by decide)

/-- C5: hysteresis correctness in Speaking with hysteresis count 10.
Starting from a zeroed silence counter: (a) nine consecutive sub-threshold
frames followed by one frame at or above the end threshold reset the
counter to 0 and complete nothing; (b) ten consecutive sub-threshold
frames still complete nothing; (c) exactly eleven consecutive
sub-threshold frames complete the session (the done signal fires on the
eleventh). -/
theorem C5_hysteresis :
    (∀ (ap : AudioProcessor) (inputs : List (ℚ × List Int)) (now : ℚ) (buf : List Int),
      ap.isPlaying = false → ap.voiceDetected = true → ap.silenceFrames = 0 →
      inputs.length = 9 → allBelowB ap inputs = true →
      ¬ nextNoise (runState ap inputs) buf < endThresh (runState ap inputs) →
      (runAll ap inputs).2 = [] ∧
      (audioCallback (runState ap inputs) now buf).1.silenceFrames = 0 ∧
      (audioCallback (runState ap inputs) now buf).2 = none) ∧
    (∀ (ap : AudioProcessor) (inputs : List (ℚ × List Int)),
      ap.isPlaying = false → ap.voiceDetected = true → ap.silenceFrames = 0 →
      inputs.length = 10 → allBelowB ap inputs = true →
      (runAll ap inputs).2 = []) ∧
    (∀ (ap : AudioProcessor) (inputs : List (ℚ × List Int)),
      ap.isPlaying = false → ap.voiceDetected = true → ap.silenceFrames = 0 →
      inputs.length = 11 → allBelowB ap inputs = true →
      (runAll ap inputs).2 = [Event.done]) := by
  refine ⟨?_, ?_, ?_⟩
  · intro ap inputs now buf hp hv hs hlen hall hb
    have hr := runAll_below inputs ap hp hv hall (by omega)
    have hfst := runAll_fst inputs ap
    have hvd : (runState ap inputs).voiceDetected = true := by rw [← hfst]; exact hr.2.2.1
    have hpl : (runState ap inputs).isPlaying = false := by rw [← hfst]; exact hr.2.2.2
    refine ⟨hr.1, ?_, ?_⟩
    · rw [audioCallback_speaking_above _ now buf hvd (notDrop _ buf hpl) hb]
      rfl
    · rw [audioCallback_speaking_above _ now buf hvd (notDrop _ buf hpl) hb]
  · intro ap inputs hp hv hs hlen hall
    exact (runAll_below inputs ap hp hv hall (by omega)).1
  · intro ap inputs hp hv hs hlen hall
    have hcat : inputs.take 10 ++ inputs.drop 10 = inputs := List.take_append_drop 10 inputs
    have hlen10 : (inputs.take 10).length = 10 := by rw [List.length_take]; omega
    have hdrop1 : (inputs.drop 10).length = 1 := by rw [List.length_drop]; omega
    obtain ⟨p, hp1⟩ := List.length_eq_one.mp hdrop1
    rw [← hcat, hp1] at hall ⊢
    rw [runAll_append]
    rw [allBelowB_append] at hall
    simp only [Bool.and_eq_true] at hall
    obtain ⟨hall1, hall2⟩ := hall
    have hr := runAll_below (inputs.take 10) ap hp hv hall1 (by omega)
    have hfst := runAll_fst (inputs.take 10) ap
    have hvd : (runState ap (inputs.take 10)).voiceDetected = true := by
      rw [← hfst]; exact hr.2.2.1
    have hpl : (runState ap (inputs.take 10)).isPlaying = false := by
      rw [← hfst]; exact hr.2.2.2
    have hsil : (runState ap (inputs.take 10)).silenceFrames = 10 := by
      rw [← hfst, hr.2.1, hlen10, hs]
    obtain ⟨pn, pb⟩ := p
    simp only [allBelowB, Bool.and_eq_true, decide_eq_true_eq] at hall2
    have hstep := audioCallback_speaking_below (runState ap (inputs.take 10)) pn pb hvd
      (notDrop _ pb hpl) hall2.1
    rw [if_pos (by rw [hsil]; omega)] at hstep
    have hone : (runAll (runState ap (inputs.take 10)) [(pn, pb)]).2 = [Event.done] := by
      simp [runAll, hstep]
    simp only [hr.1, hone, List.nil_append]

/-- Witness for C5 at a concrete Speaking session: nine silent frames plus
one loud frame reset the counter without completing; ten silent frames do
not complete; eleven silent frames complete. -/
theorem C5_hysteresis_witness :
    (runAll apSpeaking (List.replicate 9 ((0 : ℚ), [(0 : Int)]))).2 = [] ∧
    (audioCallback (runState apSpeaking (List.replicate 9 ((0 : ℚ), [(0 : Int)]))) 0 [5000]).1.silenceFrames = 0 ∧
    (audioCallback (runState apSpeaking (List.replicate 9 ((0 : ℚ), [(0 : Int)]))) 0 [5000]).2 = none ∧
    (runAll apSpeaking (List.replicate 10 ((0 : ℚ), [(0 : Int)]))).2 = [] ∧
    (runAll apSpeaking (List.replicate 11 ((0 : ℚ), [(0 : Int)]))).2 = [Event.done] := by
  have ha := C5_hysteresis.1 apSpeaking (List.replicate 9 ((0 : ℚ), [(0 : Int)])) 0 [5000]
    rfl rfl rfl (by decide) (by decide) (by decide)
  have hb := C5_hysteresis.2.1 apSpeaking (List.replicate 10 ((0 : ℚ), [(0 : Int)]))
    rfl rfl rfl (by decide) (by decide)
  have hc := C5_hysteresis.2.2 apSpeaking (List.replicate 11 ((0 : ℚ), [(0 : Int)]))
    rfl rfl rfl (by decide) (by decide)
  exact ⟨ha.1, ha.2.1, ha.2.2, hb, hc⟩

/-- C6: in a session whose level never exceeds the voice-start threshold,
exactly one re-prompt fires at the first frame past the timeout (setting
the prompt-played flag and resetting the session timer to the time of
that frame), exactly one done signal fires at the first frame past the timeout
measured from the re-prompt, the session never reaches Speaking, and the
accumulation buffer stays empty, so no Utterance content is ever produced. -/
theorem C6_timeout_sequencing
    (t0 t1 t2 : ℚ) (b1 b2 : List Int) (A B rest : List (ℚ × List Int))
    (hA : ∀ p ∈ A, fSub p.1 t0 ≤ voiceDetectionTimeout)
    (h1 : fSub t1 t0 > voiceDetectionTimeout)
    (hB : ∀ p ∈ B, fSub p.1 t1 ≤ voiceDetectionTimeout)
    (h2 : fSub t2 t1 > voiceDetectionTimeout)
    (hq : allNoVoiceB (initState t0) (A ++ ((t1, b1) :: B)) = true) :
    (runUntilDone (initState t0) (A ++ ((t1, b1) :: (B ++ ((t2, b2) :: rest))))).2
      = [Event.rePrompt, Event.done] ∧
    (runUntilDone (initState t0) (A ++ ((t1, b1) :: (B ++ ((t2, b2) :: rest))))).1.frames = [] ∧
    (runUntilDone (initState t0) (A ++ ((t1, b1) :: (B ++ ((t2, b2) :: rest))))).1.voiceDetected = false ∧
    (runUntilDone (initState t0) (A ++ ((t1, b1) :: (B ++ ((t2, b2) :: rest))))).1.promptPlayed = true ∧
    (runUntilDone (initState t0) (A ++ ((t1, b1) :: (B ++ ((t2, b2) :: rest))))).1.startTime = t1 := by
  rw [allNoVoiceB_append] at hq
  simp only [Bool.and_eq_true] at hq
  obtain ⟨hqA, hqtail⟩ := hq
  obtain ⟨hrun1, hp1, hv1, hst1, hpp1, hfr1⟩ :=
    quietRun A (initState t0) ((t1, b1) :: (B ++ ((t2, b2) :: rest))) rfl rfl hqA hA
  have hst1a : (runState (initState t0) A).startTime = t0 := hst1
  have hpp1a : (runState (initState t0) A).promptPlayed = false := hpp1
  have hstep1 := audioCallback_rePrompt (runState (initState t0) A) t1 b1
    (notDrop _ b1 hp1) hv1 (by rw [hst1a]; exact h1) hpp1a
  have hpair : audioCallback (runState (initState t0) A) t1 b1
      = ((audioCallback (runState (initState t0) A) t1 b1).1, some Event.rePrompt) := by
    rw [hstep1]
  have hproj1 : (audioCallback (runState (initState t0) A) t1 b1).1.isPlaying = false := by
    rw [hstep1]; exact hp1
  have hproj2 : (audioCallback (runState (initState t0) A) t1 b1).1.voiceDetected = false := by
    rw [hstep1]; exact hv1
  have hproj3 : (audioCallback (runState (initState t0) A) t1 b1).1.startTime = t1 := by
    rw [hstep1]
  have hproj4 : (audioCallback (runState (initState t0) A) t1 b1).1.promptPlayed = true := by
    rw [hstep1]
  have hproj5 : (audioCallback (runState (initState t0) A) t1 b1).1.frames = [] := by
    rw [hstep1]; exact hfr1
  simp only [allNoVoiceB, Bool.and_eq_true, decide_eq_true_eq] at hqtail
  have hqB := hqtail.2
  have hB2 : ∀ p ∈ B, fSub p.1 (audioCallback (runState (initState t0) A) t1 b1).1.startTime
      ≤ voiceDetectionTimeout := by
    rw [hproj3]; exact hB
  obtain ⟨hrun2, hp3, hv3, hst3, hpp3, hfr3⟩ :=
    quietRun B ((audioCallback (runState (initState t0) A) t1 b1).1)
      ((t2, b2) :: rest) hproj1 hproj2 hqB hB2
  have hstep2 := audioCallback_abort
    (runState ((audioCallback (runState (initState t0) A) t1 b1).1) B)
    t2 b2 (notDrop _ b2 hp3) hv3 (by rw [hst3, hproj3]; exact h2) (by rw [hpp3, hproj4])
  rw [hrun1, runUntilDone_cons_rePrompt _ _ t1 b1 _ hpair, hrun2,
    runUntilDone_cons_done _ _ t2 b2 rest hstep2]
  refine ⟨rfl, ?_, hv3, ?_, ?_⟩
  · rw [hfr3]
    exact hproj5
  · rw [hpp3]
    exact hproj4
  · rw [hst3]
    exact hproj3

/-- Witness for C6: a session of two frames, one at six seconds and one at
twelve seconds, with no audio ever above the threshold. -/
theorem C6_timeout_sequencing_witness :
    (runUntilDone (initState 0) [((6 : ℚ), [(0 : Int)]), ((12 : ℚ), [(0 : Int)])]).2
      = [Event.rePrompt, Event.done] ∧
    (runUntilDone (initState 0) [((6 : ℚ), [(0 : Int)]), ((12 : ℚ), [(0 : Int)])]).1.frames = [] ∧
    (runUntilDone (initState 0) [((6 : ℚ), [(0 : Int)]), ((12 : ℚ), [(0 : Int)])]).1.voiceDetected = false ∧
    (runUntilDone (initState 0) [((6 : ℚ), [(0 : Int)]), ((12 : ℚ), [(0 : Int)])]).1.promptPlayed = true ∧
    (runUntilDone (initState 0) [((6 : ℚ), [(0 : Int)]), ((12 : ℚ), [(0 : Int)])]).1.startTime = 6 :=
  C6_timeout_sequencing 0 6 12 [0] [0] [] [] []
    (by intro p hp; cases hp) (by decide) (by intro p hp; cases hp) (by decide) (by decide)
